import Mathlib

/-!
Shallow embedding of the dashboard content resolution layer of the qloo
repository (frontend/src/services/apiService.js,
frontend/src/services/dashboardDataStore.js,
frontend/src/data/fallbackData.js), together with proofs about the
claims of its specification.

Conventions of the embedding:
* a JavaScript value that may be `undefined` is modelled as an `Option`;
* JavaScript truthiness is modelled explicitly: an absent value and the
  empty string are falsy, every array and object (even empty ones) is
  truthy, the number 0 is falsy;
* `localStorage` is modelled as a record `LS` with one slot per key used
  by the code (the dashboard-cache key and the profile key); a stored
  value that fails `JSON.parse` is modelled by a `corrupt` constructor,
  so a `try/catch` around deserialization becomes a `match`;
* functions are total; "this function never throws" is represented by an
  `Option`-valued result (a miss is `none`, never an exception).
-/

namespace Qloo

/-- Model of a JSON/JS value, as far as the profile objects need:
strings, numbers, booleans, lists of strings, and null. -/
inductive JVal where
  | jstr (s : String)
  | jnum (n : Int)
  | jbool (b : Bool)
  | jlist (l : List String)
  | jnull
deriving DecidableEq

/-- JavaScript truthiness of a defined value: `""`, `0`, `false` and
`null` are falsy; every non-empty string, non-zero number, `true` and
every array (including `[]`) is truthy. -/
def jsTruthy : JVal → Bool
  | .jstr s => !(s == "")
  | .jnum n => !(n == 0)
  | .jbool b => b
  | .jlist _ => true
  | .jnull => false

/-- Truthiness of a possibly-absent value: `undefined` is falsy. -/
def jsTruthyOpt : Option JVal → Bool
  | some v => jsTruthy v
  | none => false

/-- The JavaScript `a || b` expression on a possibly-absent `a`. -/
def jsOr (a : Option JVal) (b : JVal) : JVal :=
  match a with
  | some v => if jsTruthy v then v else b
  | none => b

/-- A JS object with unknown key set, as a key-value association list
(first binding of a key wins, as in object literals read left to right
after deduplication). Used for the profile objects, whose claims are
about key sets. -/
abbrev JObj := List (String × JVal)

/-- Property access `o.k` on a `JObj`: `none` models `undefined`. -/
def getField (o : JObj) (k : String) : Option JVal :=
  (o.find? (fun kv => kv.1 == k)).map (fun kv => kv.2)

/-! ### Content domain objects

Each domain object of the API response (`content.music`,
`content.recipe`, `content.photo`, `content.nostalgia_news`,
`patient_info`, `metadata`, `pipeline_metadata`) is modelled as a
structure whose fields are the keys the source reads and writes; a field
holds `none` when the key is absent. -/

structure MusicData where
  artist : Option String
  piece_title : Option String
  youtube_url : Option String
  youtube_embed : Option String
  conversation_starters : Option (List String)
  fun_fact : Option String
deriving DecidableEq

structure RecipeData where
  name : Option String
  ingredients : Option (List String)
  instructions : Option (List String)
  conversation_starters : Option (List String)
deriving DecidableEq

structure PhotoData where
  filename : Option String
  description : Option String
  cultural_context : Option String
  conversation_starters : Option (List String)
deriving DecidableEq

/-- One section of the nostalgia news object. The fallback sections use
`headline`/`content`/`fun_fact`, except the conversation-starters
section which uses `headline`/`questions`; one structure covers both
shapes with absent fields as `none`. -/
structure NewsSection where
  headline : Option String
  content : Option String
  fun_fact : Option String
  questions : Option (List String)
deriving DecidableEq

structure NewsSections where
  memory_spotlight : Option NewsSection
  era_highlights : Option NewsSection
  heritage_traditions : Option NewsSection
  conversation_starters : Option NewsSection
deriving DecidableEq

structure NewsMetadata where
  generated_by : Option String
  generation_timestamp : Option String
  theme_integrated : Option String
  heritage_featured : Option String
  safety_level : Option String
  structure_verified : Option Bool
  sections_count : Option Nat
  newsletter_tone : Option Bool
deriving DecidableEq

structure NostalgiaData where
  title : Option String
  subtitle : Option String
  date : Option String
  personalized_for : Option String
  sections : Option NewsSections
  themes : Option (List String)
  metadata : Option NewsMetadata
deriving DecidableEq

structure PatientInfo where
  name : Option String
  cultural_heritage : Option String
  age : Option Int
  daily_theme : Option String
deriving DecidableEq

structure Content where
  music : Option MusicData
  recipe : Option RecipeData
  photo : Option PhotoData
  nostalgia_news : Option NostalgiaData
deriving DecidableEq

structure TopMetadata where
  quality_score : Option String
  personalization_level : Option String
  generation_timestamp : Option String
  theme : Option String
  agent_pipeline : Option String
deriving DecidableEq

structure AgentsSummary where
  agent1 : Option String
  agent2 : Option String
  agent3 : Option String
  agent4a : Option String
  agent4b : Option String
  agent4c : Option String
  agent5 : Option String
  agent6 : Option String
deriving DecidableEq

structure PipelineMetadata where
  agents_executed : Option Nat
  execution_timestamp : Option String
  pipeline_version : Option String
  star_feature : Option String
  cultural_intelligence : Option String
  personalization : Option String
  agents_summary : Option AgentsSummary
deriving DecidableEq

/-- The ContentBundle: shape of a parsed `/api/dashboard` response body
and of the fallback constant. Top-level keys may be absent (`none`)
when the remote body is malformed. -/
structure Bundle where
  patient_info : Option PatientInfo
  content : Option Content
  metadata : Option TopMetadata
  pipeline_metadata : Option PipelineMetadata
deriving DecidableEq

/-! ### The reference dataset (frontend/src/data/fallbackData.js) -/

def fallbackMusic : MusicData :=
  { artist := some "Giacomo Puccini"
    piece_title := some "La Bohème"
    youtube_url := some "https://www.youtube.com/watch?v=eKh7SnSi8S8"
    youtube_embed := some "https://www.youtube.com/embed/eKh7SnSi8S8"
    conversation_starters := some
      ["This beautiful opera reminds me of those wonderful Friday nights at the theater",
       "Puccini\x27s music makes me think of romantic dinners and dancing under the stars"]
    fun_fact := some
      "In the 1950s, families would gather around the radio to listen to beautiful opera broadcasts together" }

def fallbackRecipe : RecipeData :=
  { name := some "Happy Days Italian Afternoon Snack"
    ingredients := some
      ["1 slice good bread", "1 tablespoon olive oil", "1 teaspoon balsamic vinegar",
       "Pinch of salt", "1 teaspoon Parmesan cheese"]
    instructions := some
      ["Toast bread lightly in microwave for 30 seconds",
       "Drizzle with olive oil and balsamic vinegar",
       "Sprinkle with salt and Parmesan",
       "Heat for additional 30 seconds to warm"]
    conversation_starters := some
      ["Remember those carefree afternoons when life was simple and sweet?",
       "Did your family enjoy these kinds of treats while watching The Ed Sullivan Show?",
       "What were your favorite simple pleasures back in the happy days?"] }

def fallbackPhoto : PhotoData :=
  { filename := some "school.png"
    description := some
      "Here\x27s a delightful photo that captures the joy of the Happy Days era! It shows children with bright smiles and that unmistakable 1950s charm. Everyone looks so neat and cheerful, just like those wonderful times when life felt full of promise and every day brought new adventures."
    cultural_context := some
      "Enhanced for italian-american heritage with Happy Days nostalgia"
    conversation_starters := some
      ["Look at those happy faces! Does this remind you of the good old days when everything felt magical?",
       "This photo brings back memories of sock hops and soda fountains, doesn\x27t it? Those were such happy times!",
       "See how everyone\x27s dressed up so nicely? Those were the days when people took pride in looking their best!"] }

def fallbackSections : NewsSections :=
  { memory_spotlight := some
      { headline := some "✨ Memory Spotlight"
        content := some
          "On this day in 1948, Italy adopted a new constitution, symbolizing hope and new beginnings - just like those wonderful Happy Days when the future seemed bright and full of possibilities! It was an era of optimism, much like the feeling of cruising down Main Street with friends on a perfect summer evening."
        fun_fact := some
          "The happiest memories are made during times of hope and togetherness."
        questions := none }
    era_highlights := some
      { headline := some "🎶 Era Highlights"
        content := some
          "The 1950s were truly the Happy Days - drive-in movies, jukeboxes playing the latest hits, and families gathering for Sunday dinners. Remember the excitement of getting dressed up for a night out at the local diner? Those simple pleasures made every day feel special and full of joy."
        fun_fact := some
          "Rock \x27n\x27 roll and family values made the 50s an unforgettable time."
        questions := none }
    heritage_traditions := some
      { headline := some "🏛️ Heritage Traditions"
        content := some
          "Italian-American families in the Happy Days era brought such warmth to their communities - Sunday gravy simmering all day, kids playing stickball in the street, and neighbors who were like family. Those traditions of food, music, and togetherness made every day feel like a celebration of la bella vita."
        fun_fact := some
          "Family traditions create the happiest and most lasting memories."
        questions := none }
    conversation_starters := some
      { headline := some "💬 Conversation Starters"
        content := none
        fun_fact := none
        questions := some
          ["What made you happiest during those wonderful 1950s days?",
           "Do you remember dancing to your favorite songs at the local hop?",
           "What was your favorite family tradition that made those days so special?"] } }

def fallbackNostalgia : NostalgiaData :=
  { title := some "Nostalgia News – July 28"
    subtitle := some "Happy Days Edition"
    date := some "July 28, 2025"
    personalized_for := some "Maria"
    sections := some fallbackSections
    themes := some ["Happy Days", "Heritage", "Memories"]
    metadata := some
      { generated_by := some "gemini_newsletter"
        generation_timestamp := some "2025-07-28T15:51:22.347808"
        theme_integrated := some "Happy Days"
        heritage_featured := some "italian-american"
        safety_level := some "dementia_friendly"
        structure_verified := some true
        sections_count := some 4
        newsletter_tone := some true } }

def fallbackPatientInfo : PatientInfo :=
  { name := some "Maria"
    cultural_heritage := some "Italian-American"
    age := some 80
    daily_theme := some "Happy Days" }

def FALLBACK_API_RESPONSE : Bundle :=
  { patient_info := some fallbackPatientInfo
    content := some
      { music := some fallbackMusic
        recipe := some fallbackRecipe
        photo := some fallbackPhoto
        nostalgia_news := some fallbackNostalgia }
    metadata := some
      { quality_score := some "high"
        personalization_level := some "highly_personalized"
        generation_timestamp := some "2025-07-28T15:51:22.349328"
        theme := some "Happy Days"
        agent_pipeline := some "6_agent_enhanced" }
    pipeline_metadata := some
      { agents_executed := some 8
        execution_timestamp := some "2025-07-28T15:51:22.349785"
        pipeline_version := some "6_agent_nostalgia_news"
        star_feature := some "nostalgia_news_generator"
        cultural_intelligence := some "qloo_powered"
        personalization := some "gemini_enhanced"
        agents_summary := some
          { agent1 := some "Information consolidation with theme selection"
            agent2 := some "Simple photo analysis (theme-based)"
            agent3 := some "Qloo cultural intelligence (heritage-driven)"
            agent4a := some "Music curation with YouTube integration"
            agent4b := some "Recipe selection (microwave-safe)"
            agent4c := some "Photo description with cultural context"
            agent5 := some "Nostalgia News generation (Gemini AI)"
            agent6 := some "Dashboard synthesis and final assembly" } } }

/-! ### Per-field fallback merge (dashboardDataStore.js)

The store's `getMusicData` / `getRecipeData` / `getNostalgiaData`
methods read `this.data?.content?.<domain> || {}` and merge it field by
field against the corresponding domain of `FALLBACK_API_RESPONSE`,
short-circuiting to the complete fallback when the live object has no
keys. The merge expressions are embedded as functions of both the live
and the fallback object, exactly as the method bodies compute them. -/

/-- Truthiness of an optional string, as the JS `||` sees it:
`undefined` and `""` are falsy. -/
def truthyStr (v : Option String) : Bool :=
  match v with
  | some s => !(s == "")
  | none => false

/-- `a || b` on string-valued fields (e.g. `apiData.artist || fallbackData.artist`). -/
def strOr (a b : Option String) : Option String :=
  if truthyStr a then a else b

/-- The list-field test `a && a.length > 0` of the merge code. -/
def listTruthy (v : Option (List String)) : Bool :=
  match v with
  | some l => decide (0 < l.length)
  | none => false

/-- `a && a.length > 0 ? a : b` on list-valued fields. -/
def listOr (a b : Option (List String)) : Option (List String) :=
  if listTruthy a then a else b

/-- `a || b` on object-valued fields: every object is truthy, so only
presence matters (e.g. `apiSections.memory_spotlight || fallbackSections.memory_spotlight`). -/
def objOr {α : Type} (a b : Option α) : Option α :=
  if a.isSome then a else b

def emptyMusic : MusicData :=
  { artist := none, piece_title := none, youtube_url := none,
    youtube_embed := none, conversation_starters := none, fun_fact := none }

/-- `Object.keys(apiData).length === 0` for a music object, over the
keys the model carries. -/
def musicKeysEmpty (m : MusicData) : Bool :=
  m.artist.isNone && m.piece_title.isNone && m.youtube_url.isNone &&
  m.youtube_embed.isNone && m.conversation_starters.isNone && m.fun_fact.isNone

/-- The `mergedData` object literal of `getMusicData` (lines 43-54). -/
def mergeMusic (apiData fallbackData : MusicData) : MusicData :=
  { artist := strOr apiData.artist fallbackData.artist
    piece_title := strOr apiData.piece_title fallbackData.piece_title
    youtube_url := strOr apiData.youtube_url fallbackData.youtube_url
    youtube_embed := strOr apiData.youtube_embed fallbackData.youtube_embed
    conversation_starters :=
      listOr apiData.conversation_starters fallbackData.conversation_starters
    fun_fact := strOr apiData.fun_fact fallbackData.fun_fact }

/-- Body of `getMusicData`, parametric in the live object
(`this.data?.content?.music`, `none` models `undefined`) and in the
fallback object (bound to `FALLBACK_API_RESPONSE.content.music` at the
call site). -/
def getMusicDataFrom (live : Option MusicData) (fallbackData : MusicData) : MusicData :=
  let apiData := live.getD emptyMusic
  if musicKeysEmpty apiData then fallbackData
  else mergeMusic apiData fallbackData

def emptyRecipe : RecipeData :=
  { name := none, ingredients := none, instructions := none,
    conversation_starters := none }

def recipeKeysEmpty (r : RecipeData) : Bool :=
  r.name.isNone && r.ingredients.isNone && r.instructions.isNone &&
  r.conversation_starters.isNone

/-- The `mergedData` object literal of `getRecipeData` (lines 136-151). -/
def mergeRecipe (apiData fallbackData : RecipeData) : RecipeData :=
  { name := strOr apiData.name fallbackData.name
    ingredients := listOr apiData.ingredients fallbackData.ingredients
    instructions := listOr apiData.instructions fallbackData.instructions
    conversation_starters :=
      listOr apiData.conversation_starters fallbackData.conversation_starters }

/-- Body of `getRecipeData`, parametric in live and fallback objects. -/
def getRecipeDataFrom (live : Option RecipeData) (fallbackData : RecipeData) : RecipeData :=
  let apiData := live.getD emptyRecipe
  if recipeKeysEmpty apiData then fallbackData
  else mergeRecipe apiData fallbackData

def emptySections : NewsSections :=
  { memory_spotlight := none, era_highlights := none,
    heritage_traditions := none, conversation_starters := none }

def emptyNostalgia : NostalgiaData :=
  { title := none, subtitle := none, date := none, personalized_for := none,
    sections := none, themes := none, metadata := none }

def nostalgiaKeysEmpty (n : NostalgiaData) : Bool :=
  n.title.isNone && n.subtitle.isNone && n.date.isNone &&
  n.personalized_for.isNone && n.sections.isNone && n.themes.isNone &&
  n.metadata.isNone

/-- The `mergedSections` and `mergedData` object literals of
`getNostalgiaData` (lines 188-216). -/
def mergeNostalgia (apiData fallbackData : NostalgiaData) : NostalgiaData :=
  let apiSections := apiData.sections.getD emptySections
  let fbSections := fallbackData.sections.getD emptySections
  let mergedSections : NewsSections :=
    { memory_spotlight := objOr apiSections.memory_spotlight fbSections.memory_spotlight
      era_highlights := objOr apiSections.era_highlights fbSections.era_highlights
      heritage_traditions :=
        objOr apiSections.heritage_traditions fbSections.heritage_traditions
      conversation_starters :=
        objOr apiSections.conversation_starters fbSections.conversation_starters }
  { title := strOr apiData.title fallbackData.title
    subtitle := strOr apiData.subtitle fallbackData.subtitle
    date := strOr apiData.date fallbackData.date
    personalized_for := strOr apiData.personalized_for fallbackData.personalized_for
    sections := some mergedSections
    themes := listOr apiData.themes fallbackData.themes
    metadata := objOr apiData.metadata fallbackData.metadata }

/-- Body of `getNostalgiaData`, parametric in live and fallback objects. -/
def getNostalgiaDataFrom (live : Option NostalgiaData) (fallbackData : NostalgiaData) :
    NostalgiaData :=
  let apiData := live.getD emptyNostalgia
  if nostalgiaKeysEmpty apiData then fallbackData
  else mergeNostalgia apiData fallbackData

/-- `this.data?.content?.music` of the store. -/
def musicOf (data : Option Bundle) : Option MusicData :=
  (data.bind (fun b => b.content)).bind (fun c => c.music)

/-- `DashboardDataStore.getMusicData`, with the store's `this.data`. -/
def getMusicData (data : Option Bundle) : MusicData :=
  getMusicDataFrom (musicOf data) fallbackMusic

/-! ### Subscriber notification (dashboardDataStore.js, setData)

`setData` runs `this.listeners.forEach(listener => listener(this.data))`.
A listener is modelled by an identifier together with whether its
callback throws when invoked. `forEachNotify` embeds the semantics of
`Array.prototype.forEach` over possibly-throwing callbacks: callbacks
run in order; a throwing callback is itself invoked, the exception then
propagates and no later callback runs. The result is the list of
invoked listener ids and whether an exception escaped. -/

structure Listener where
  id : Nat
  throws : Bool
deriving DecidableEq

def forEachNotify : List Listener → List Nat × Bool
  | [] => ([], false)
  | l :: rest =>
    if l.throws then ([l.id], true)
    else
      let r := forEachNotify rest
      (l.id :: r.1, r.2)

/-- The in-process store: `this.data` and `this.listeners`. -/
structure ContentStore where
  data : Option Bundle
  listeners : List Listener
deriving DecidableEq

/-- `DashboardDataStore.setData` (lines 13-19): replaces `this.data`,
then notifies the listeners; returns the updated store together with the
ids of the listeners actually invoked and whether an exception escaped
the `forEach`. -/
def ContentStore.setData (s : ContentStore) (dashboardData : Bundle) :
    ContentStore × (List Nat × Bool) :=
  ({ s with data := some dashboardData }, forEachNotify s.listeners)

/-! ### Local storage model (apiService.js)

Two persisted keys: `lumicue_dashboard_data` (the day cache) and
`patient_profile` (the local profile record). A slot is `none` when the
key is absent; a present slot is either a parsed value or `corrupt`
(a value on which `JSON.parse` throws). -/

structure CacheObject where
  date : String
  data : Bundle
  patientProfile : Option JObj
  timestamp : Int
deriving DecidableEq

inductive CacheRaw where
  | corrupt
  | entry (c : CacheObject)
deriving DecidableEq

inductive ProfileRaw where
  | pcorrupt
  | pvalid (p : JObj)
deriving DecidableEq

structure LS where
  cache : Option CacheRaw
  profile : Option ProfileRaw
deriving DecidableEq

/-- The default profile returned by `getLocalProfile` when nothing is
stored (apiService.js lines 334-341). -/
def defaultLocalProfile : JObj :=
  [("first_name", .jstr "Guest"),
   ("name", .jstr "Guest"),
   ("birth_year", .jnum 1942),
   ("cultural_heritage", .jstr "Italian-American"),
   ("interests", .jlist ["cooking", "family", "music"])]

/-- `apiService.getLocalProfile` (lines 323-342): the stored profile if
it parses, else the default (a parse failure is caught). -/
def getLocalProfile (st : LS) : JObj :=
  match st.profile with
  | some (.pvalid p) => p
  | some .pcorrupt => defaultLocalProfile
  | none => defaultLocalProfile

/-- `apiService.setCachedData` (lines 178-192). `today` stands for
`getTodayDateString()` read from the device clock at call time, `now`
for `Date.now()`. `patientProfile || this.getLocalProfile()`: the
stored snapshot falls back to the current local profile. -/
def setCachedData (today : String) (now : Int) (data : Bundle)
    (patientProfile : Option JObj) (st : LS) : LS :=
  { st with cache := some (.entry
      { date := today
        data := data
        patientProfile := some (patientProfile.getD (getLocalProfile st))
        timestamp := now }) }

/-- `apiService.clearCache` (lines 232-241): removes only the dashboard
cache key (the profile key is kept). -/
def clearCache (st : LS) : LS :=
  { st with cache := none }

/-- `apiService.getCachedData` (lines 195-229): returns the cached
bundle only when the entry parses and its `date` equals today's date
string at read time; a parse failure or stale entry clears the cache
and yields a miss (`none`), mirroring the `try/catch`; on a hit, a
stored profile snapshot is written back to the profile key before the
bundle is returned. -/
def getCachedData (today : String) (st : LS) : Option Bundle × LS :=
  match st.cache with
  | none => (none, st)
  | some .corrupt => (none, clearCache st)
  | some (.entry c) =>
    if c.date == today then
      (some c.data,
       match c.patientProfile with
       | some pp => { st with profile := some (.pvalid pp) }
       | none => st)
    else
      (none, clearCache st)

/-! ### Anonymization (apiService.js, createAnonymizedProfile) -/

/-- The inner `calculateAgeGroup` arrow function (lines 268-275).
`currentYear` stands for `new Date().getFullYear()`. The profile's
`birth_year` is modelled as a number or absent; `!birthYear` is true
both for an absent value and for the number 0. -/
def calculateAgeGroup (currentYear : Int) (birthYear : Option Int) : String :=
  match birthYear with
  | none => "senior"
  | some n =>
    if n == 0 then "senior"
    else
      let currentAge := currentYear - n
      if currentAge ≥ 80 then "oldest_senior"
      else if currentAge ≥ 65 then "senior"
      else "adult"

/-- Numeric view of a profile field (`birth_year` is a number when
present; any other shape is out of the modelled domain). -/
def numVal : Option JVal → Option Int
  | some (.jnum n) => some n
  | _ => none

/-- The starter interests list of line 281. -/
def starterInterests : List String := ["music", "family", "cooking"]

/-- `apiService.createAnonymizedProfile` (lines 264-295) applied to an
already-selected source profile (`profileData || this.getLocalProfile()`
resolved by `createAnonymizedProfile`). The output is the object
literal of lines 278-285, as a key-value list: exactly the four keys it
writes, in order. -/
def anonymizedProfileOf (currentYear : Int) (sourceProfile : JObj) : JObj :=
  [("age_group", .jstr (calculateAgeGroup currentYear
        (numVal (getField sourceProfile "birth_year")))),
   ("cultural_heritage",
    jsOr (getField sourceProfile "cultural_heritage") (.jstr "American")),
   ("interests",
    jsOr (getField sourceProfile "interests") (.jlist starterInterests)),
   ("profile_complete", .jbool
      (jsTruthyOpt (getField sourceProfile "cultural_heritage") &&
       jsTruthyOpt (getField sourceProfile "birth_year")))]

/-- `apiService.createAnonymizedProfile` with its source-selection line
`const sourceProfile = profileData || this.getLocalProfile()`. -/
def createAnonymizedProfile (currentYear : Int) (st : LS)
    (profileData : Option JObj) : JObj :=
  anonymizedProfileOf currentYear (profileData.getD (getLocalProfile st))

/-- The `interests` entry of the transmitted profile. -/
def anonInterests (currentYear : Int) (sourceProfile : JObj) : Option JVal :=
  getField (anonymizedProfileOf currentYear sourceProfile) "interests"

/-! ### Fetch classification and the load pipeline (apiService.js,
getDashboardData / useBulletproofFallback) -/

/-- Outcome of the single `fetch` + `response.json()` of
`getDashboardData`: `throwErr` models a network error (or a body on
which `json()` throws), caught by the surrounding `try/catch`;
`resp ok body` models a completed HTTP response with `response.ok`
status flag (`ok = false` for every non-2xx status) and parsed body. -/
inductive FetchOutcome where
  | throwErr
  | resp (ok : Bool) (body : Bundle)
deriving DecidableEq

/-- A fetch that ended in a network error or a non-2xx HTTP status. -/
def fetchFailed : FetchOutcome → Prop
  | .throwErr => True
  | .resp ok _ => ok = false

instance : DecidablePred fetchFailed := by
  intro o
  cases o with
  | throwErr => exact isTrue trivial
  | resp ok body => exact inferInstanceAs (Decidable (ok = false))

/-- The shape validation of line 63: the body passes iff
`data?.content` and `data?.patient_info` are both truthy (the code
falls back when `!data?.content || !data?.patient_info`). -/
def validShape (body : Bundle) : Bool :=
  body.content.isSome && body.patient_info.isSome

/-- `apiService.useBulletproofFallback` (lines 87-102), restricted to
its persistent effects: returns `FALLBACK_API_RESPONSE` and caches it
with the current local profile snapshot. (The in-memory store update
`dashboardDataStore.setData` is modelled separately by
`ContentStore.setData`.) -/
def useBulletproofFallback (today : String) (now : Int) (st : LS) : Bundle × LS :=
  (FALLBACK_API_RESPONSE,
   setCachedData today now FALLBACK_API_RESPONSE (some (getLocalProfile st)) st)

/-- The post-fetch part of `getDashboardData` (lines 37-83): non-ok
status, json failure and invalid shape all take the bulletproof
fallback; an accepted body is cached with the local profile snapshot
and returned. -/
def fetchPhase (today : String) (now : Int) (outcome : FetchOutcome) (st : LS) :
    Bundle × LS :=
  match outcome with
  | .throwErr => useBulletproofFallback today now st
  | .resp ok body =>
    if !ok then useBulletproofFallback today now st
    else if !validShape body then useBulletproofFallback today now st
    else (body, setCachedData today now body (some (getLocalProfile st)) st)

/-- `apiService.getDashboardData` (lines 15-84) over the storage state:
unless `forceRefresh`, a same-day cached bundle is returned without
fetching; otherwise the fetch outcome is resolved by `fetchPhase`. -/
def getDashboardData (today : String) (now : Int) (forceRefresh : Bool)
    (outcome : FetchOutcome) (st : LS) : Bundle × LS :=
  if forceRefresh then fetchPhase today now outcome st
  else
    match getCachedData today st with
    | (some cached, st') => (cached, st')
    | (none, st') => fetchPhase today now outcome st'

/-! ### Spec-side definitions

These definitions follow the specification's words (not the source) and
exist to be compared with the source-derived functions above. -/

/-- Spec notion of a present scalar/string field: it exists and is
non-empty. -/
def presentScalar (v : Option String) : Prop := v.isSome = true ∧ v ≠ some ""

/-- Spec notion of a present list field: it exists and has length > 0. -/
def presentList (v : Option (List String)) : Prop := 0 < (v.getD []).length

instance : DecidablePred presentScalar := fun v => by
  unfold presentScalar; infer_instance

instance : DecidablePred presentList := fun v => by
  unfold presentList; infer_instance

/-- Modelled from the spec (claim C5 wording): age group from
`currentYear - birthYear` with thresholds 80 and 65, and `senior` when
`birthYear` is missing. -/
def ageGroupSpecClaim (currentYear : Int) (birthYear : Option Int) : String :=
  match birthYear with
  | none => "senior"
  | some n =>
    if currentYear - n ≥ 80 then "oldest_senior"
    else if currentYear - n ≥ 65 then "senior"
    else "adult"

/-- The claim's age-group rule amended at the one point the code
forces: a `birth_year` equal to 0 is falsy in JS, so the code also
defaults it to `senior` instead of applying the arithmetic rule. -/
def ageGroupSpecAmended (currentYear : Int) (birthYear : Option Int) : String :=
  match birthYear with
  | none => "senior"
  | some n =>
    if n = 0 then "senior"
    else if currentYear - n ≥ 80 then "oldest_senior"
    else if currentYear - n ≥ 65 then "senior"
    else "adult"

/-- Spec notion of a music object whose fields are all present. -/
def musicAllPresent (m : MusicData) : Prop :=
  presentScalar m.artist ∧ presentScalar m.piece_title ∧
  presentScalar m.youtube_url ∧ presentScalar m.youtube_embed ∧
  presentList m.conversation_starters ∧ presentScalar m.fun_fact

/-- Spec notion of a nostalgia object whose fields are all present
(sections are merged atomically, so a present `sections` object with
all four section entries counts as fully present). -/
def nostalgiaAllPresent (n : NostalgiaData) : Prop :=
  presentScalar n.title ∧ presentScalar n.subtitle ∧
  presentScalar n.date ∧ presentScalar n.personalized_for ∧
  n.sections.isSome = true ∧
  (n.sections.getD emptySections).memory_spotlight.isSome = true ∧
  (n.sections.getD emptySections).era_highlights.isSome = true ∧
  (n.sections.getD emptySections).heritage_traditions.isSome = true ∧
  (n.sections.getD emptySections).conversation_starters.isSome = true ∧
  presentList n.themes ∧ n.metadata.isSome = true

/-! ### Concrete values used in examples, counterexamples and witnesses -/

/-- The spec's mixed-merge example, live side. -/
def bachLive : MusicData :=
  { emptyMusic with artist := some "Bach", conversation_starters := some [] }

/-- The spec's mixed-merge example, reference side. -/
def anonRef : MusicData :=
  { emptyMusic with
    artist := some "Anon"
    conversation_starters := some ["Tell me about music"] }

/-- The spec's mixed-merge example, expected result. -/
def bachMergedExpected : MusicData :=
  { emptyMusic with
    artist := some "Bach"
    conversation_starters := some ["Tell me about music"] }

/-- A parsed body that has a `content` key but no `patient_info` key. -/
def shapeCexBody : Bundle := { FALLBACK_API_RESPONSE with patient_info := none }

/-- A same-day cache entry carrying a profile snapshot. -/
def c10CexEntry : CacheObject :=
  { date := "Mon Jul 28 2025"
    data := FALLBACK_API_RESPONSE
    patientProfile := some [("name", JVal.jstr "Maria")]
    timestamp := 0 }

/-- A storage state whose persisted profile differs from the cached
profile snapshot. -/
def c10CexState : LS :=
  { cache := some (.entry c10CexEntry)
    profile := some (.pvalid [("name", JVal.jstr "Rose")]) }

/-! ### Helper lemmas -/

lemma truthyStr_eq_true_iff (v : Option String) :
    truthyStr v = true ↔ presentScalar v := by
  cases v with
  | none => simp [truthyStr, presentScalar]
  | some s => simp [truthyStr, presentScalar]

lemma listTruthy_eq_true_iff (v : Option (List String)) :
    listTruthy v = true ↔ presentList v := by
  cases v with
  | none => simp [listTruthy, presentList]
  | some l => simp [listTruthy, presentList]

lemma strOr_eq_ite (a b : Option String) :
    strOr a b = if presentScalar a then a else b := by
  unfold strOr
  by_cases h : presentScalar a
  · rw [if_pos ((truthyStr_eq_true_iff a).mpr h), if_pos h]
  · rw [if_neg h]
    cases ht : truthyStr a
    · rfl
    · exact absurd ((truthyStr_eq_true_iff a).mp ht) h

lemma listOr_eq_ite (a b : Option (List String)) :
    listOr a b = if presentList a then a else b := by
  unfold listOr
  by_cases h : presentList a
  · rw [if_pos ((listTruthy_eq_true_iff a).mpr h), if_pos h]
  · rw [if_neg h]
    cases ht : listTruthy a
    · rfl
    · exact absurd ((listTruthy_eq_true_iff a).mp ht) h

lemma objOr_of_isSome {α : Type} (a b : Option α) (h : a.isSome = true) :
    objOr a b = a := by
  unfold objOr
  rw [if_pos h]

lemma anonInterests_eq (currentYear : Int) (sourceProfile : JObj) :
    anonInterests currentYear sourceProfile =
      some (jsOr (getField sourceProfile "interests") (.jlist starterInterests)) := rfl

lemma forEachNotify_spec (ls : List Listener) :
    forEachNotify ls =
      ((ls.takeWhile (fun l => !l.throws)).map Listener.id ++
        ((ls.find? Listener.throws).map Listener.id).toList,
       ls.any Listener.throws) := by
  induction ls with
  | nil => rfl
  | cons l rest ih =>
    cases h : l.throws with
    | true => simp [forEachNotify, h, List.find?]
    | false => simp [forEachNotify, h, ih, List.find?]

/-! ### Claim theorems -/

/-- C2: in every domain merge each field is chosen independently of its
siblings — taken from the live object exactly when present (for list
fields: length > 0; for scalar fields: non-empty), from the reference
object otherwise; a live object that is `undefined` or an empty object
yields the reference object unchanged; and the live
`{artist: Bach, conversation_starters: []}` merged against the reference
`{artist: Anon, conversation_starters: [Tell me about music]}` yields
artist `Bach` with the reference conversation starters. -/
theorem c2_merge_per_field_policy :
    (∀ apiData fallbackData : MusicData,
      mergeMusic apiData fallbackData =
        { artist := if presentScalar apiData.artist then apiData.artist
            else fallbackData.artist
          piece_title := if presentScalar apiData.piece_title then apiData.piece_title
            else fallbackData.piece_title
          youtube_url := if presentScalar apiData.youtube_url then apiData.youtube_url
            else fallbackData.youtube_url
          youtube_embed := if presentScalar apiData.youtube_embed then apiData.youtube_embed
            else fallbackData.youtube_embed
          conversation_starters :=
            if presentList apiData.conversation_starters then apiData.conversation_starters
            else fallbackData.conversation_starters
          fun_fact := if presentScalar apiData.fun_fact then apiData.fun_fact
            else fallbackData.fun_fact }) ∧
    (∀ apiData fallbackData : RecipeData,
      mergeRecipe apiData fallbackData =
        { name := if presentScalar apiData.name then apiData.name
            else fallbackData.name
          ingredients := if presentList apiData.ingredients then apiData.ingredients
            else fallbackData.ingredients
          instructions := if presentList apiData.instructions then apiData.instructions
            else fallbackData.instructions
          conversation_starters :=
            if presentList apiData.conversation_starters then apiData.conversation_starters
            else fallbackData.conversation_starters }) ∧
    (∀ fallbackData : MusicData,
      getMusicDataFrom none fallbackData = fallbackData ∧
      getMusicDataFrom (some emptyMusic) fallbackData = fallbackData) ∧
    (∀ fallbackData : RecipeData,
      getRecipeDataFrom none fallbackData = fallbackData ∧
      getRecipeDataFrom (some emptyRecipe) fallbackData = fallbackData) ∧
    getMusicDataFrom (some bachLive) anonRef = bachMergedExpected := by
  refine ⟨fun a f => ?_, fun a f => ?_, fun f => ⟨rfl, rfl⟩, fun f => ⟨rfl, rfl⟩, by decide⟩
  · simp only [mergeMusic, strOr_eq_ite, listOr_eq_ite]
  · simp only [mergeRecipe, strOr_eq_ite, listOr_eq_ite]

/-- C4: the transmitted anonymized profile has exactly the keys
`age_group`, `cultural_heritage`, `interests`, `profile_complete`, for
every input profile (including one carrying arbitrary extra keys), and
its key set never includes `name`, `city`, `state` or the raw birth
year. -/
theorem c4_anonymized_profile_keys (currentYear : Int) (st : LS)
    (profileData : Option JObj) :
    (createAnonymizedProfile currentYear st profileData).map Prod.fst =
      ["age_group", "cultural_heritage", "interests", "profile_complete"] ∧
    "name" ∉ (createAnonymizedProfile currentYear st profileData).map Prod.fst ∧
    "city" ∉ (createAnonymizedProfile currentYear st profileData).map Prod.fst ∧
    "state" ∉ (createAnonymizedProfile currentYear st profileData).map Prod.fst ∧
    "birth_year" ∉ (createAnonymizedProfile currentYear st profileData).map Prod.fst ∧
    "birthYear" ∉ (createAnonymizedProfile currentYear st profileData).map Prod.fst := by
  have hk : (createAnonymizedProfile currentYear st profileData).map Prod.fst =
      ["age_group", "cultural_heritage", "interests", "profile_complete"] := rfl
  refine ⟨hk, ?_, ?_, ?_, ?_, ?_⟩ <;> rw [hk] <;> decide

/-- C4 witness: at a concrete input the anonymized profile's key list
is exactly the four permitted keys. -/
theorem c4_anonymized_profile_keys_witness :
    (createAnonymizedProfile 2025 ⟨none, none⟩ none).map Prod.fst =
      ["age_group", "cultural_heritage", "interests", "profile_complete"] ∧
    "name" ∉ (createAnonymizedProfile 2025 ⟨none, none⟩ none).map Prod.fst :=
  ⟨(c4_anonymized_profile_keys 2025 ⟨none, none⟩ none).1,
   (c4_anonymized_profile_keys 2025 ⟨none, none⟩ none).2.1⟩

/-- C5 counterexample: the claim's age-group rule (`≥80 → oldest_senior`
whenever `birth_year` is present) fails on the code at `birth_year = 0`:
JS `!birthYear` is true for 0, so the code returns `senior` where the
claim's rule demands `oldest_senior`. -/
theorem c5_age_group_claim_cex :
    ¬ ∀ (currentYear : Int) (birthYear : Option Int),
        calculateAgeGroup currentYear birthYear =
          ageGroupSpecClaim currentYear birthYear := by
  intro h
  exact absurd (h 2025 (some 0)) (by decide)

/-- C5 amended: the derived age group follows the claim's thresholds
(`≥80 → oldest_senior`, `≥65 → senior`, otherwise `adult`, missing
`birth_year → senior`) except that a `birth_year` of 0, being falsy, is
treated like a missing one and also yields `senior`. -/
theorem c5_age_group_amended (currentYear : Int) (birthYear : Option Int) :
    calculateAgeGroup currentYear birthYear =
      ageGroupSpecAmended currentYear birthYear := by
  cases birthYear with
  | none => rfl
  | some n =>
    by_cases h : n = 0
    · subst h; rfl
    · simp [calculateAgeGroup, ageGroupSpecAmended, h]

/-- C9: a live domain object in which every field is present is
returned by the merge unchanged — value-equal to the live input, with
no field taken from the reference object — both for the music domain
and for the nostalgia-news domain. -/
theorem c9_all_present_merge_identity (m fbm : MusicData) (n fbn : NostalgiaData)
    (hm : musicAllPresent m) (hn : nostalgiaAllPresent n) :
    getMusicDataFrom (some m) fbm = m ∧ getNostalgiaDataFrom (some n) fbn = n := by
  constructor
  · obtain ⟨ha, hp, hu, he, hc, hf⟩ := hm
    have hne : musicKeysEmpty m = false := by
      rcases hart : m.artist with _ | s
      · rw [presentScalar, hart] at ha
        simp at ha
      · simp [musicKeysEmpty, hart]
    have hmerge : mergeMusic m fbm = m := by
      obtain ⟨a, p2, u, e, c, f⟩ := m
      simp only [mergeMusic, strOr_eq_ite, listOr_eq_ite, MusicData.mk.injEq]
      exact ⟨if_pos ha, if_pos hp, if_pos hu, if_pos he, if_pos hc, if_pos hf⟩
    simp [getMusicDataFrom, hne, hmerge]
  · obtain ⟨ht, hsub, hd, hpf, hsec, hms, heh, hht, hcs, hth, hmd⟩ := hn
    obtain ⟨t, sub, d, pf, sec, th, md⟩ := n
    rcases sec with _ | s
    · simp at hsec
    · have hne : nostalgiaKeysEmpty ⟨t, sub, d, pf, some s, th, md⟩ = false := by
        rcases h0 : t with _ | ts
        · rw [presentScalar] at ht
          simp [h0] at ht
        · simp [nostalgiaKeysEmpty, h0]
      have hmerge : mergeNostalgia ⟨t, sub, d, pf, some s, th, md⟩ fbn =
          ⟨t, sub, d, pf, some s, th, md⟩ := by
        obtain ⟨ms, eh, htr, cs⟩ := s
        simp only [Option.getD_some] at hms heh hht hcs
        simp only [mergeNostalgia, strOr_eq_ite, listOr_eq_ite, Option.getD_some,
          NostalgiaData.mk.injEq, Option.some.injEq, NewsSections.mk.injEq]
        exact ⟨if_pos ht, if_pos hsub, if_pos hd, if_pos hpf,
          ⟨objOr_of_isSome _ _ hms, objOr_of_isSome _ _ heh,
           objOr_of_isSome _ _ hht, objOr_of_isSome _ _ hcs⟩,
          if_pos hth, objOr_of_isSome _ _ hmd⟩
      simp [getNostalgiaDataFrom, hne, hmerge]

/-- C9 witness: the reference music and nostalgia objects are fully
present, and merging them as live data against themselves returns them
unchanged. -/
theorem c9_all_present_merge_identity_witness :
    musicAllPresent fallbackMusic ∧ nostalgiaAllPresent fallbackNostalgia ∧
    getMusicDataFrom (some fallbackMusic) fallbackMusic = fallbackMusic ∧
    getNostalgiaDataFrom (some fallbackNostalgia) fallbackNostalgia =
      fallbackNostalgia := by
  have h1 : musicAllPresent fallbackMusic := by
    unfold musicAllPresent
    decide
  have h2 : nostalgiaAllPresent fallbackNostalgia := by
    unfold nostalgiaAllPresent
    decide
  obtain ⟨hm, hn⟩ :=
    c9_all_present_merge_identity fallbackMusic fallbackMusic
      fallbackNostalgia fallbackNostalgia h1 h2
  exact ⟨h1, h2, hm, hn⟩

/-- C3: after a `set`, a `get` returns a bundle value-equal to the set
bundle exactly when the stored date equals today's date string at read
time; an absent entry, a stale entry or a corrupt entry yields a miss
(`none`, never an exception in this total model), and the stale or
corrupt entry is removed from storage rather than partially reused. -/
theorem c3_day_cache_get_set (writeDay readDay : String) (now : Int)
    (B : Bundle) (pp : Option JObj) (st st₀ : LS) :
    ((getCachedData readDay (setCachedData writeDay now B pp st)).1 = some B ↔
      writeDay = readDay) ∧
    (writeDay ≠ readDay →
      (getCachedData readDay (setCachedData writeDay now B pp st)).1 = none ∧
      ((getCachedData readDay (setCachedData writeDay now B pp st)).2).cache = none) ∧
    (st₀.cache = none → getCachedData readDay st₀ = (none, st₀)) ∧
    (st₀.cache = some .corrupt →
      (getCachedData readDay st₀).1 = none ∧
      ((getCachedData readDay st₀).2).cache = none) := by
  refine ⟨?_, ?_, ?_, ?_⟩
  · by_cases h : writeDay = readDay
    · subst h
      simp [getCachedData, setCachedData]
    · simp [getCachedData, setCachedData, h]
  · intro h
    simp [getCachedData, setCachedData, clearCache, h]
  · intro h
    simp [getCachedData, h]
  · intro h
    simp [getCachedData, clearCache, h]

/-- C3 witness: a concrete round trip — a bundle cached on
`Sun Oct 12 2025` is returned by a same-day `get`, missed (and the
entry dropped) by a next-day `get`, and a corrupt stored entry is also
missed and dropped. -/
theorem c3_day_cache_get_set_witness :
    (getCachedData "Sun Oct 12 2025"
        (setCachedData "Sun Oct 12 2025" 0 FALLBACK_API_RESPONSE none ⟨none, none⟩)).1 =
      some FALLBACK_API_RESPONSE ∧
    (getCachedData "Mon Oct 13 2025"
        (setCachedData "Sun Oct 12 2025" 0 FALLBACK_API_RESPONSE none ⟨none, none⟩)).1 =
      none ∧
    (getCachedData "Mon Oct 13 2025" ⟨some .corrupt, none⟩).1 = none := by
  have h1 :=
    (c3_day_cache_get_set "Sun Oct 12 2025" "Sun Oct 12 2025" 0 FALLBACK_API_RESPONSE
      none ⟨none, none⟩ ⟨none, none⟩).1.mpr rfl
  have h2 :=
    ((c3_day_cache_get_set "Sun Oct 12 2025" "Mon Oct 13 2025" 0 FALLBACK_API_RESPONSE
      none ⟨none, none⟩ ⟨none, none⟩).2.1 (by decide)).1
  have h3 :=
    ((c3_day_cache_get_set "Sun Oct 12 2025" "Mon Oct 13 2025" 0 FALLBACK_API_RESPONSE
      none ⟨none, none⟩ ⟨some .corrupt, none⟩).2.2.2 rfl).1
  exact ⟨h1, h2, h3⟩

/-- C1: whenever a load actually fetches (forced refresh or day-cache
miss) and the fetch ends in a network error or a non-2xx HTTP status,
the resolved bundle is exactly `FALLBACK_API_RESPONSE` — no field of
the failed response survives — and that bundle is written to the day
cache under today's date string. -/
theorem c1_failed_fetch_yields_wholesale_fallback (today : String) (now : Int)
    (forceRefresh : Bool) (outcome : FetchOutcome) (st : LS)
    (hfail : fetchFailed outcome)
    (hfetches : forceRefresh = true ∨ (getCachedData today st).1 = none) :
    (getDashboardData today now forceRefresh outcome st).1 = FALLBACK_API_RESPONSE ∧
    ∃ c : CacheObject,
      ((getDashboardData today now forceRefresh outcome st).2).cache =
        some (.entry c) ∧
      c.date = today ∧ c.data = FALLBACK_API_RESPONSE := by
  have hfp : ∀ st1 : LS,
      (fetchPhase today now outcome st1).1 = FALLBACK_API_RESPONSE ∧
      ∃ c : CacheObject,
        ((fetchPhase today now outcome st1).2).cache = some (.entry c) ∧
        c.date = today ∧ c.data = FALLBACK_API_RESPONSE := by
    intro st1
    cases outcome with
    | throwErr =>
      exact ⟨rfl, ⟨_, rfl, rfl, rfl⟩⟩
    | resp ok body =>
      have hok : ok = false := hfail
      subst hok
      exact ⟨rfl, ⟨_, rfl, rfl, rfl⟩⟩
  cases forceRefresh with
  | true =>
    simpa [getDashboardData] using hfp st
  | false =>
    rcases hfetches with h | h
    · exact absurd h (by simp)
    · have hsplit : getDashboardData today now false outcome st =
          fetchPhase today now outcome (getCachedData today st).2 := by
        unfold getDashboardData
        simp only [Bool.false_eq_true, if_false]
        rcases hget : getCachedData today st with ⟨fst, snd⟩
        rw [hget] at h
        simp only at h
        subst h
        rfl
      rw [hsplit]
      exact hfp (getCachedData today st).2

/-- C1 witness: a forced-refresh load whose fetch comes back with a
non-2xx status resolves to the reference dataset and caches it for
today. -/
theorem c1_failed_fetch_yields_wholesale_fallback_witness :
    (getDashboardData "Sun Oct 12 2025" 0 true
        (.resp false FALLBACK_API_RESPONSE) ⟨none, none⟩).1 =
      FALLBACK_API_RESPONSE ∧
    ∃ c : CacheObject,
      ((getDashboardData "Sun Oct 12 2025" 0 true
          (.resp false FALLBACK_API_RESPONSE) ⟨none, none⟩).2).cache =
        some (.entry c) ∧
      c.date = "Sun Oct 12 2025" ∧ c.data = FALLBACK_API_RESPONSE :=
  c1_failed_fetch_yields_wholesale_fallback "Sun Oct 12 2025" 0 true
    (.resp false FALLBACK_API_RESPONSE) ⟨none, none⟩ rfl (Or.inl rfl)

/-- C6 counterexample: with a subscriber list whose first callback
throws, `setData` never invokes the second subscriber — the claim that
one subscriber's exception does not prevent later subscribers from
being notified fails on the `forEach`-based notification, which has no
per-callback isolation. -/
theorem c6_subscriber_isolation_cex :
    ¬ ∀ (s : ContentStore) (b : Bundle) (i j : Nat) (hi : i < j)
        (hj : j < s.listeners.length),
        (s.listeners.get ⟨i, Nat.lt_trans hi hj⟩).throws = true →
        (s.listeners.get ⟨j, hj⟩).id ∈ (s.setData b).2.1 := by
  intro h
  have h2 := h ⟨none, [⟨0, true⟩, ⟨1, false⟩]⟩ FALLBACK_API_RESPONSE 0 1
    (by decide) (by decide) rfl
  simp [ContentStore.setData, forEachNotify] at h2

/-- C6 amended: `setData` stores the new bundle and notifies
subscribers in subscription order only up to and including the first
subscriber whose callback throws; that exception escapes the
notification loop, so every later subscriber is not invoked. -/
theorem c6_notification_stops_at_thrower (s : ContentStore) (b : Bundle) :
    (s.setData b).1.data = some b ∧
    (s.setData b).2.1 =
      (s.listeners.takeWhile (fun l => !l.throws)).map Listener.id ++
        ((s.listeners.find? Listener.throws).map Listener.id).toList ∧
    (s.setData b).2.2 = s.listeners.any Listener.throws := by
  have h := forEachNotify_spec s.listeners
  refine ⟨rfl, ?_, ?_⟩
  · show (forEachNotify s.listeners).1 = _
    rw [h]
  · show (forEachNotify s.listeners).2 = _
    rw [h]

/-- C7 counterexample: a parsed body that has a `content` key but lacks
only `patient_info` is not accepted — the code's validation requires
both keys, so this body triggers the wholesale fallback although the
claim says a body with either one of the two keys proceeds to merging. -/
theorem c7_invalid_shape_cex :
    ¬(shapeCexBody.content = none ∧ shapeCexBody.patient_info = none) ∧
    validShape shapeCexBody = false ∧
    (fetchPhase "Sun Oct 12 2025" 0 (.resp true shapeCexBody) ⟨none, none⟩).1 =
      FALLBACK_API_RESPONSE := by
  refine ⟨?_, rfl, rfl⟩
  intro h
  exact absurd h.1 (by simp [shapeCexBody, FALLBACK_API_RESPONSE])

/-- C7 amended: the locally raised invalid-shape outcome (wholesale
fallback) occurs exactly when the parsed body lacks the `content` key
or lacks the `patient_info` key; only a body carrying both keys is
accepted. -/
theorem c7_invalid_shape_amended (body : Bundle) :
    (validShape body = false ↔ (body.content = none ∨ body.patient_info = none)) ∧
    (∀ (today : String) (now : Int) (st : LS),
      validShape body = false →
      fetchPhase today now (.resp true body) st =
        useBulletproofFallback today now st) := by
  constructor
  · rcases hc : body.content with _ | c <;>
      rcases hp : body.patient_info with _ | p <;>
      simp [validShape, hc, hp]
  · intro today now st h
    simp [fetchPhase, h]

/-- C7 amended witness: the body with `content` but without
`patient_info` fails validation and is resolved by the wholesale
fallback. -/
theorem c7_invalid_shape_amended_witness :
    validShape shapeCexBody = false ∧
    fetchPhase "Sun Oct 12 2025" 0 (.resp true shapeCexBody) ⟨none, none⟩ =
      useBulletproofFallback "Sun Oct 12 2025" 0 ⟨none, none⟩ :=
  ⟨rfl, (c7_invalid_shape_amended shapeCexBody).2 "Sun Oct 12 2025" 0 ⟨none, none⟩ rfl⟩

/-- C8 counterexample: a source profile whose `interests` is the empty
list keeps that empty list in the anonymized profile — the starter
list is not substituted, because an empty array is truthy in JS —
refuting the claim that an empty interests list yields the fixed
starter list. -/
theorem c8_empty_interests_cex :
    anonInterests 2025 [("interests", JVal.jlist [])] ≠
      some (JVal.jlist starterInterests) ∧
    anonInterests 2025 [("interests", JVal.jlist [])] = some (JVal.jlist []) := by
  refine ⟨?_, rfl⟩
  decide

/-- C8 amended: the anonymized profile's `interests` equals the fixed
starter list only when the source profile's `interests` is absent; a
present interests list — the empty list included — is kept verbatim. -/
theorem c8_interests_amended (currentYear : Int) (sourceProfile : JObj) :
    (getField sourceProfile "interests" = none →
      anonInterests currentYear sourceProfile =
        some (JVal.jlist starterInterests)) ∧
    (∀ l : List String,
      getField sourceProfile "interests" = some (JVal.jlist l) →
      anonInterests currentYear sourceProfile = some (JVal.jlist l)) := by
  constructor
  · intro h
    rw [anonInterests_eq, h]
    rfl
  · intro l h
    rw [anonInterests_eq, h]
    rfl

/-- C8 amended witness: a profile without `interests` gets the starter
list; a profile with a present interests list keeps it verbatim. -/
theorem c8_interests_amended_witness :
    anonInterests 2025 [] = some (JVal.jlist starterInterests) ∧
    anonInterests 2025 [("interests", JVal.jlist ["gardening"])] =
      some (JVal.jlist ["gardening"]) :=
  ⟨(c8_interests_amended 2025 []).1 rfl,
   (c8_interests_amended 2025 [("interests", JVal.jlist ["gardening"])]).2
     ["gardening"] rfl⟩

/-- C10 counterexample: a same-day cache hit overwrites the separately
persisted profile record with the profile snapshot stored in the cache
entry, so the claim that no day-cache operation modifies the stored
profile fails at a state whose persisted profile differs from the
cached snapshot. -/
theorem c10_profile_frame_cex :
    ¬ ∀ (today : String) (now : Int) (B : Bundle) (pp : Option JObj) (st : LS),
        (setCachedData today now B pp st).profile = st.profile ∧
        ((getCachedData today st).2).profile = st.profile ∧
        (clearCache st).profile = st.profile := by
  intro h
  exact absurd
    ((h "Mon Jul 28 2025" 0 FALLBACK_API_RESPONSE none c10CexState).2.1)
    (by decide)

/-- C10 amended: `set`, `clear` and every missing `get` (absent,
corrupt or stale entry) leave the persisted profile record unchanged;
a same-day `get` hit overwrites the profile record with the cache
entry's profile snapshot when one is stored, and leaves it unchanged
only when the entry carries no snapshot. -/
theorem c10_profile_frame_amended (today : String) (now : Int) (B : Bundle)
    (pp : Option JObj) (st : LS) :
    (setCachedData today now B pp st).profile = st.profile ∧
    (clearCache st).profile = st.profile ∧
    ((getCachedData today st).1 = none →
      ((getCachedData today st).2).profile = st.profile) ∧
    (∀ c : CacheObject, st.cache = some (.entry c) → c.date = today →
      ((getCachedData today st).2).profile =
        (match c.patientProfile with
         | some pp2 => some (.pvalid pp2)
         | none => st.profile)) := by
  refine ⟨rfl, rfl, ?_, ?_⟩
  · intro h
    rcases hc : st.cache with _ | r
    · simp [getCachedData, hc]
    · cases r with
      | corrupt => simp [getCachedData, hc, clearCache]
      | entry c =>
        by_cases hd : c.date = today
        · exfalso
          rw [getCachedData, hc] at h
          simp [hd] at h
        · simp [getCachedData, hc, hd, clearCache]
  · intro c hc hd
    rw [getCachedData, hc]
    simp only [hd, beq_self_eq_true, if_true]
    cases hcp : c.patientProfile <;> simp

/-- C10 amended witness: at the concrete state, a stale-day `get`
preserves the profile record, while the same-day `get` replaces it
with the cached snapshot. -/
theorem c10_profile_frame_amended_witness :
    ((getCachedData "Tue Jul 29 2025" c10CexState).2).profile =
      c10CexState.profile ∧
    ((getCachedData "Mon Jul 28 2025" c10CexState).2).profile =
      some (.pvalid [("name", JVal.jstr "Maria")]) := by
  have h1 :=
    (c10_profile_frame_amended "Tue Jul 29 2025" 0 FALLBACK_API_RESPONSE none
      c10CexState).2.2.1 (by decide)
  have h2 :=
    (c10_profile_frame_amended "Mon Jul 28 2025" 0 FALLBACK_API_RESPONSE none
      c10CexState).2.2.2 c10CexEntry rfl rfl
  refine ⟨h1, ?_⟩
  rw [h2]
  rfl

end Qloo
